import Mathlib

/-!
# kattis_app: sample extraction and test runner

A shallow embedding of `src/kattis_app/main.go`.

* Go strings are Lean `String`s (sequences of Unicode scalar values; the text
  handed over by the HTML parser is valid UTF-8).
* The parsed page is a tree of `Node`s; the goquery operations the program
  uses (`Find`, `First`, `Last`, `Children`, `Text`, `Each`) are functions on
  lists of located nodes.
* The host (file system, network, child processes) is an `Env` of answers;
  every call the program makes to the host is recorded, in order, as an
  `Effect`.  A `Run` is the list of effects together with the exit status when
  the process has terminated.
* `filepath.Join` is kept symbolic: a `Path` remembers the joined elements.
  `filepath.Ext` is the Unix one, with `/` as the separator.
* The program ignores the result of every `WriteString`; a `write` effect is
  the call, with the text handed to it.
* The index of a sample block is a natural number: a Go `int` cannot overflow
  on the number of nodes of a page.
* The fields `prefix` and `postfix` of the source type `markdown` are named
  `pfx` and `sfx`.
-/

namespace Kattis

/-! ## Strings -/

/-- Go `unicode.IsSpace`: the Latin-1 cases are tested directly, the others
are the remaining ranges of the `White_Space` table. -/
def IsSpace (r : Char) : Bool :=
  if r.toNat ≤ 0xFF then
    r.toNat == 0x09 || r.toNat == 0x0A || r.toNat == 0x0B || r.toNat == 0x0C ||
      r.toNat == 0x0D || r.toNat == 0x20 || r.toNat == 0x85 || r.toNat == 0xA0
  else
    r.toNat == 0x1680 || (0x2000 ≤ r.toNat && r.toNat ≤ 0x200A) ||
      r.toNat == 0x2028 || r.toNat == 0x2029 || r.toNat == 0x202F ||
      r.toNat == 0x205F || r.toNat == 0x3000

/-- Go `strings.TrimSpace`: the leading, then the trailing white space is cut. -/
def TrimSpace (s : String) : String :=
  ⟨((s.data.dropWhile IsSpace).reverse.dropWhile IsSpace).reverse⟩

/-- Go `strings.HasPrefix`. -/
def HasPrefix (s pre : String) : Bool :=
  pre.data.isPrefixOf s.data

/-- The loop of `filepath.Ext`, run over the reversed path: `seen` is the part
of the path already walked over, in reading order. -/
def extScan : List Char → List Char → List Char
  | [], _ => []
  | c :: rest, seen =>
    if c == '/' then []
    else if c == '.' then c :: seen
    else extScan rest (c :: seen)

/-- Go `filepath.Ext`: the suffix starting at the last dot of the last path
element, empty when that element has no dot. -/
def Ext (path : String) : String :=
  ⟨extScan path.data.reverse []⟩

/-- Go `fmt.Sprint` of a non-negative `int`: its decimal numeral. -/
def Sprint (i : Nat) : String :=
  toString i

/-! ## The parsed document -/

/-- A node of the parsed HTML tree.  Of the attributes only `id` and the
white-space separated `class` list matter to the selectors used. -/
inductive Node where
  | text (data : String)
  | comment (data : String)
  | element (tag : String) (id : Option String) (classes : List String)
      (children : List Node)

/-- A node together with its ancestors, nearest first. -/
structure Loc where
  ancestors : List Node
  node : Node

/-- The selectors the program passes to goquery and colly. -/
inductive Selector where
  | tag (name : String)
  | cls (name : String)
  | id (name : String)
  | descendant (outer inner : Selector)

/-- Selector matching on one node: a descendant selector asks for some
ancestor, up to the root of the document, that matches the outer part. -/
def Selector.matchNode : Selector → List Node → Node → Bool
  | .tag t, _, .element t1 _ _ _ => t1 == t
  | .cls c, _, .element _ _ cs _ => cs.contains c
  | .id i, _, .element _ i1 _ _ => i1 == some i
  | .descendant outer inner, anc, n =>
    inner.matchNode anc n &&
      anc.tails.any (fun t =>
        match t with
        | [] => false
        | p :: ps => outer.matchNode ps p)
  | _, _, _ => false

mutual
/-- All matches within the subtree rooted at a node, the node itself
included, in document order. -/
def matchAll (m : Selector) : List Node → Node → List Loc
  | anc, .text d => if m.matchNode anc (.text d) then [⟨anc, .text d⟩] else []
  | anc, .comment d => if m.matchNode anc (.comment d) then [⟨anc, .comment d⟩] else []
  | anc, .element t i cs ch =>
    (if m.matchNode anc (.element t i cs ch) then [⟨anc, .element t i cs ch⟩] else []) ++
      matchAllList m (.element t i cs ch :: anc) ch
/-- The matches within a list of sibling subtrees. -/
def matchAllList (m : Selector) : List Node → List Node → List Loc
  | _, [] => []
  | anc, c :: rest => matchAll m anc c ++ matchAllList m anc rest
end

/-- Whether a node is an element. -/
def Node.isElement : Node → Bool
  | .element _ _ _ _ => true
  | _ => false

/-- The child nodes of a node. -/
def Node.childNodes : Node → List Node
  | .element _ _ _ ch => ch
  | _ => []

/-- The matches below a node with the given children: every element child is
searched, itself included. -/
def findIn (m : Selector) (anc : List Node) (children : List Node) : List Loc :=
  (children.filter Node.isElement).flatMap (matchAll m anc)

/-- goquery `Find`: the matches among the descendants of each selected node.
Every call in the program is made on a selection of at most one node, so the
removal of duplicates never applies. -/
def Find (m : Selector) (sel : List Loc) : List Loc :=
  sel.flatMap (fun l => findIn m (l.node :: l.ancestors) l.node.childNodes)

/-- goquery `First`. -/
def First (sel : List Loc) : List Loc :=
  sel.take 1

/-- goquery `Last`. -/
def Last (sel : List Loc) : List Loc :=
  sel.getLast?.toList

/-- goquery `Children`: the element children of each selected node. -/
def Children (sel : List Loc) : List Loc :=
  sel.flatMap (fun l =>
    (l.node.childNodes.filter Node.isElement).map (fun c => ⟨l.node :: l.ancestors, c⟩))

mutual
/-- The text nodes below a node, concatenated in document order. -/
def Node.Text : Node → String
  | .text d => d
  | .comment _ => ""
  | .element _ _ _ ch => Node.TextList ch
/-- The text of a list of sibling nodes. -/
def Node.TextList : List Node → String
  | [] => ""
  | c :: rest => c.Text ++ Node.TextList rest
end

/-- goquery `Text`: the combined text of the selected nodes. -/
def Text (sel : List Loc) : String :=
  String.join (sel.map (fun l => l.node.Text))

/-- goquery `NodeName` of the first selected node. -/
def NodeName (sel : List Loc) : String :=
  match sel with
  | ⟨_, .element t _ _ _⟩ :: _ => t
  | ⟨_, .text _⟩ :: _ => "#text"
  | ⟨_, .comment _⟩ :: _ => "#comment"
  | [] => ""

/-! ## Host, effects and runs -/

/-- A file-system path: a string used as it is, or the elements handed to
`filepath.Join`. -/
inductive Path where
  | raw (s : String)
  | join (elems : List String)
  deriving DecidableEq, Repr

/-- What `c.Visit` leads to. -/
inductive VisitResult where
  /-- The visit is refused before a request is made; no callback runs. -/
  | rejected
  /-- The request is made and `OnError` receives this error. -/
  | failed (err : String)
  /-- The request is made and the response is parsed: the nodes directly
  below the document node. -/
  | page (doc : List Node)

/-- The answers of the host. -/
structure Env where
  /-- Whether `os.Stat` returns a file info. -/
  stat : Path → Bool
  /-- The result of `c.Visit`. -/
  visit : String → VisitResult
  /-- The text `r.URL.String()` of the request made for a visited URL, as
  the collector normalises it. -/
  requestURL : String → String
  /-- Whether `os.MkdirAll` succeeds. -/
  mkdirAll : Path → Bool
  /-- The error of `os.Create`, `none` when the file is created. -/
  create : Path → Option String
  /-- The call `exec.Cmd.Output` for a command, its arguments and the file connected
  to its standard input: the captured output, `none` when the command cannot be
  launched or exits with a non-zero status. -/
  output : String → List String → Option Path → Option String
  /-- The call `os.Getwd`. -/
  getwd : Option String
  /-- The call `os.ReadDir`: the names of the entries, in listing order. -/
  readDir : Path → Option (List String)
  /-- Whether `os.Open` succeeds. -/
  openFile : Path → Bool

/-- One call to the host. -/
inductive Effect where
  /-- The call `fmt.Println`: the text and a newline on standard output. -/
  | println (s : String)
  /-- The call `log.Fatal`: the message on standard error, then exit status 1. -/
  | logFatal (msg : String)
  | stat (p : Path)
  | visit (url : String)
  | mkdirAll (p : Path) (ok : Bool)
  | create (p : Path) (ok : Bool)
  /-- The call `WriteString` on the file created at the path. -/
  | write (p : Path) (data : String)
  /-- The call `Output` of a command with the given standard input. -/
  | exec (name : String) (args : List String) (stdin : Option Path) (ok : Bool)
  | getwd
  | readDir (p : Path)
  | openFile (p : Path) (ok : Bool)
  deriving DecidableEq, Repr

/-- The effects of a computation and, when it ended the process, the exit
status. -/
structure Run where
  trace : List Effect
  exit : Option Nat
  deriving DecidableEq, Repr

/-- Sequencing: the second computation runs only if the first did not end the
process. -/
def Run.andThen (r k : Run) : Run :=
  match r.exit with
  | some c => ⟨r.trace, some c⟩
  | none => ⟨r.trace ++ k.trace, k.exit⟩

/-- A list of computations in sequence. -/
def Run.all : List Run → Run
  | [] => ⟨[], none⟩
  | r :: rest => r.andThen (Run.all rest)

/-- The call `log.Fatal(msg)`. -/
def fatal (msg : String) : Run :=
  ⟨[.logFatal msg], some 1⟩

/-- Calls to the host that cannot end the process. -/
def effects (es : List Effect) : Run :=
  ⟨es, none⟩

/-! ## The program -/

/-- The formatting rule of an HTML element. -/
structure markdown where
  pfx : String
  sfx : String

/-- The table `HTMLElements` of `main`. -/
def HTMLElements : List (String × markdown) :=
  [("p", ⟨"", ""⟩),
   ("center", ⟨"```\n", "\n```"⟩),
   ("code", ⟨"```\n", "\n```"⟩),
   ("h2", ⟨"## ", ""⟩),
   ("h3", ⟨"### ", ""⟩)]

/-- Indexing the table: the zero value for a missing key. -/
def HTMLElements.at (key : String) : markdown :=
  (HTMLElements.lookup key).getD ⟨"", ""⟩

def testDir : String := "tests"

def usage : String :=
  "\n\nUsage: kattis [OPTION]... [PROBLEM_NAME] [DESTINATION_PATH]\n" ++
  "eg. open.kattis.com/problems/ferryloading3 => kattis ferryloading3\n" ++
  "DESTINATION_PATH is [./PROBLEM_NAME/] by default\n" ++
  "\nFor help type kattis --help"

/-- goquery `Each`: the callback receives the position and the node. -/
def EachFrom (f : Nat → Loc → List Effect) : Nat → List Loc → List Effect
  | _, [] => []
  | i, s :: rest => f i s ++ EachFrom f (i + 1) rest

/-- The path `filepath.Join(destination, "tests", fmt.Sprint(i)+ext)`. -/
def fixturePath (destination : String) (i : Nat) (ext : String) : Path :=
  .join [destination, "tests", Sprint i ++ ext]

/-- The cells of the last row of a sample block: `s.Find("tr").Last().Children()`. -/
def inout (s : Loc) : List Loc :=
  Children (Last (Find (.tag "tr") [s]))

/-- The cells of the first row of a sample block: `s.Find("tr").First().Children()`. -/
def titles (s : Loc) : List Loc :=
  Children (First (Find (.tag "tr") [s]))

/-- The text persisted for a cell text: `strings.TrimSpace(text) + "\n"`
(lines 166 and 176). -/
def fixtureText (cellText : String) : String :=
  TrimSpace cellText ++ "\n"

/-- The value of `inContent` for a block. -/
def inContent (s : Loc) : String :=
  fixtureText (Text (First (inout s)))

/-- The value of `outContent` for a block. -/
def outContent (s : Loc) : String :=
  fixtureText (Text (Last (inout s)))

/-- An `os.Create` whose error is printed and whose file, when created,
receives the content. -/
def createAndWrite (env : Env) (p : Path) (content : String) : List Effect :=
  match env.create p with
  | some err => [.create p false, .println err]
  | none => [.create p true, .write p content]

/-- The callback of `body.Find(".sample tbody").Each` (lines 161 to 184). -/
def sampleCallback (env : Env) (destination : String) (readme : Path) (i : Nat) (s : Loc) :
    List Effect :=
  [.write readme ("\n\n### " ++ Text (First (titles s))),
   .write readme ("\n" ++ (HTMLElements.at "center").pfx ++ inContent s ++
      (HTMLElements.at "center").sfx)] ++
  createAndWrite env (fixturePath destination i ".in") (inContent s) ++
  [.write readme ("\n### " ++ Text (Last (titles s))),
   .write readme ("\n" ++ (HTMLElements.at "center").pfx ++ outContent s ++
      (HTMLElements.at "center").sfx)] ++
  createAndWrite env (fixturePath destination i ".out") (outContent s)

/-- The sample blocks of a problem body: `body.Find(".sample tbody")`. -/
def sampleBlocks (body : List Loc) : List Loc :=
  Find (.descendant (.cls "sample") (.tag "tbody")) body

/-- The extraction of the samples: the callback on every block, in document
order, with its position. -/
def extractSamples (env : Env) (destination : String) (readme : Path) (body : List Loc) :
    List Effect :=
  EachFrom (sampleCallback env destination readme) 0 (sampleBlocks body)

/-- The callback of `body.Children().Each` (lines 153 to 158). -/
def describeChild (readme : Path) (s : Loc) : List Effect :=
  match HTMLElements.lookup (NodeName [s]) with
  | some md => [.write readme ("\n\n" ++ md.pfx ++ Text [s] ++ md.sfx)]
  | none => []

/-- The path of the description file. -/
def readmePath (destination : String) : Path :=
  .raw (destination ++ "/README.md")

/-- The path of the solution stub. -/
def pyPath (destination kattisName : String) : Path :=
  .join [destination, kattisName ++ ".py"]

/-- The problem body of a container: `e.DOM.Find(".problembody").First()`. -/
def problemBody (e : Loc) : List Loc :=
  First (Find (.cls "problembody") [e])

/-- The `OnHTML` callback for one `#instructions-container` element. -/
def onHTML (env : Env) (kattisName destination kattisURL : String) (e : Loc) : Run :=
  let tests := Path.join [destination, "tests"]
  let readme := readmePath destination
  if env.mkdirAll tests then
    match env.create readme with
    | some err =>
      ⟨[.mkdirAll tests true, .println "Parsing HTML...", .create readme false,
        .logFatal err], some 1⟩
    | none =>
      effects
        ([.mkdirAll tests true, .println "Parsing HTML...", .create readme true,
          .write readme ("# " ++ TrimSpace (Text (Find (.cls "book-page-heading") [e]))),
          .write readme ("\n[" ++ kattisURL ++ "]")] ++
        (Children (problemBody e)).flatMap (describeChild readme) ++
        extractSamples env destination readme (problemBody e) ++
        createAndWrite env (pyPath destination kattisName)
          "# Measure once, cut twice! ~ Sun Tzu\n")
  else
    ⟨[.mkdirAll tests false,
      .logFatal ("Directory " ++ destination ++ " already exists.")], some 1⟩

/-- The fetch and extract mode: the destination guard, then the visit with
its callbacks (lines 122 to 209).  `OnRequest` prints the URL of the request. -/
def fetchMode (env : Env) (kattisName destination kattisURL : String) : Run :=
  if env.stat (.raw destination) then
    ⟨[.stat (.raw destination),
      .logFatal ("Directory " ++ destination ++ " already exists.\n" ++
        "If you wish to create another directory for the same problem,\n" ++
        "provide it as the second argument. [destination_path]" ++ usage)], some 1⟩
  else
    (effects [.stat (.raw destination), .visit kattisURL]).andThen
      (match env.visit kattisURL with
       | .rejected => ⟨[], some 0⟩
       | .failed err =>
         if err == "Not Found" then
           ⟨[.println ("Searching " ++ env.requestURL kattisURL),
             .logFatal ("Problem '" ++ kattisName ++ "' was not found.")], some 1⟩
         else ⟨[.println ("Searching " ++ env.requestURL kattisURL)], some 0⟩
       | .page doc =>
         (effects [.println ("Searching " ++ env.requestURL kattisURL)]).andThen
           ((Run.all ((findIn (.id "instructions-container") [] doc).map
              (onHTML env kattisName destination kattisURL))).andThen
            ⟨[.println "Problem structure created successfully!"], some 0⟩))

/-- The path `filepath.Join(testDir, file.Name())` of a fixture. -/
def testPath (file : String) : Path :=
  .join [testDir, file]

/-- The body of the fixture loop for an entry whose extension is `.in`
(lines 81 to 91). -/
def runFixture (env : Env) (interp scriptPath file : String) : Run :=
  if env.openFile (testPath file) then
    match env.output interp [scriptPath] (some (testPath file)) with
    | none =>
      ⟨[.openFile (testPath file) true,
        .exec interp [scriptPath] (some (testPath file)) false,
        .logFatal ("An issue occured during " ++ scriptPath ++ " file execution.")], some 1⟩
    | some result =>
      effects [.openFile (testPath file) true,
        .exec interp [scriptPath] (some (testPath file)) true, .println result]
  else
    ⟨[.openFile (testPath file) false, .logFatal ("Cound not open " ++ file)], some 1⟩

/-- The fixture loop (lines 79 to 93). -/
def runFixtures (env : Env) (interp scriptPath : String) : List String → Run
  | [] => effects []
  | file :: rest =>
    if Ext file == ".in" then
      (runFixture env interp scriptPath file).andThen (runFixtures env interp scriptPath rest)
    else runFixtures env interp scriptPath rest

/-- The test mode after the script path has been read (lines 54 to 93). -/
def testScript (env : Env) (scriptPath : String) : Run :=
  if Ext scriptPath == ".py" then
    match env.output "which" ["python3"] none with
    | none =>
      ⟨[.exec "which" ["python3"] none false, .logFatal ("python3" ++ " could not be found.")],
        some 1⟩
    | some found =>
      match env.getwd with
      | none =>
        ⟨[.exec "which" ["python3"] none true, .getwd,
          .logFatal "Could not get current working directory."], some 1⟩
      | some pwd =>
        match env.readDir (.join [pwd, testDir]) with
        | none =>
          ⟨[.exec "which" ["python3"] none true, .getwd, .readDir (.join [pwd, testDir]),
            .logFatal "Could not enter tests/ directory"], some 1⟩
        | some files =>
          (effects [.exec "which" ["python3"] none true, .getwd,
            .readDir (.join [pwd, testDir])]).andThen
            (runFixtures env (TrimSpace found) scriptPath files)
  else fatal ("Testing is not supported for ." ++ Ext scriptPath ++ " files")

/-- The program: `main` on the command-line arguments after the program name. -/
def main (env : Env) (args : List String) : Run :=
  match args with
  | [] => fatal ("Missing the Kattis problem name argument." ++ usage)
  | arg :: rest =>
    if HasPrefix arg "-" then
      if arg == "--help" then
        ⟨[.println usage, .println "\n\t-t, --test",
          .println "\t\t test given Python file against all tests"], some 0⟩
      else if arg == "-t" || arg == "--test" then
        (effects [.println "Running tests..."]).andThen
          (match rest with
           | scriptPath :: _ => (testScript env scriptPath).andThen ⟨[], some 0⟩
           | [] => fatal "Missing path to the file to test")
      else
        fetchMode env "" (rest.headD "") ""
    else
      fetchMode env arg (rest.headD ("./" ++ arg)) ("https://open.kattis.com/problems/" ++ arg)

/-! ## Observations on a trace -/

/-- The paths handed to `os.Create`, in order. -/
def createAttempts (t : List Effect) : List Path :=
  t.filterMap (fun e => match e with
    | .create p _ => some p
    | _ => none)

/-- The files created, in order. -/
def createdFiles (t : List Effect) : List Path :=
  t.filterMap (fun e => match e with
    | .create p true => some p
    | _ => none)

/-- The texts written to the file at a path, in order. -/
def writesTo (p : Path) (t : List Effect) : List String :=
  t.filterMap (fun e => match e with
    | .write q data => if q = p then some data else none
    | _ => none)

/-- The arguments of `fmt.Println`, in order. -/
def printed (t : List Effect) : List String :=
  t.filterMap (fun e => match e with
    | .println s => some s
    | _ => none)

/-- The bytes put on standard output. -/
def stdout (t : List Effect) : String :=
  String.join ((printed t).map (fun s => s ++ "\n"))

/-- The fixtures on which the candidate program was launched, in order. -/
def launched (t : List Effect) : List Path :=
  t.filterMap (fun e => match e with
    | .exec _ _ (some p) _ => some p
    | _ => none)

/-- The paths handed to `os.Open`, in order. -/
def openAttempts (t : List Effect) : List Path :=
  t.filterMap (fun e => match e with
    | .openFile p _ => some p
    | _ => none)

/-- Whether a call changes the file system or reaches the network. -/
def Effect.touchesWorld : Effect → Bool
  | .mkdirAll _ _ => true
  | .create _ _ => true
  | .write _ _ => true
  | .visit _ => true
  | .exec _ _ _ _ => true
  | _ => false

/-- The input fixtures of a listing: the entries whose extension is `.in`. -/
def inputFixtures (files : List String) : List String :=
  files.filter (fun file => Ext file == ".in")

/-- The two fixture paths of every index below `n`, in order. -/
def fixturePaths (destination : String) (n : Nat) : List Path :=
  (List.range n).flatMap (fun i =>
    [fixturePath destination i ".in", fixturePath destination i ".out"])

/-- The host in which every `os.Create` succeeds, otherwise unchanged. -/
def noCreateFailure (env : Env) : Env :=
  { env with create := fun _ => none }

/-- The text of an optional cell, empty when there is none. -/
def cellText (c : Option Loc) : String :=
  match c with
  | some l => l.node.Text
  | none => ""

/-- Whether a fixture can be opened and the candidate program succeeds on it. -/
def fixtureSucceeds (env : Env) (interp scriptPath file : String) : Bool :=
  env.openFile (testPath file) && (env.output interp [scriptPath] (some (testPath file))).isSome

/-- The input fixtures of a listing whose run takes place and succeeds: those
before the first one that cannot be opened or on which the program fails. -/
def succeededFixtures (env : Env) (interp scriptPath : String) (files : List String) :
    List String :=
  (inputFixtures files).takeWhile (fixtureSucceeds env interp scriptPath)

/-- The captured output of the candidate program on a fixture, empty when the
run fails. -/
def capturedOutput (env : Env) (interp scriptPath file : String) : String :=
  (env.output interp [scriptPath] (some (testPath file))).getD ""

/-- The three calls of the fixture loop for a fixture whose run succeeds with
the given captured output. -/
def fixtureSteps (interp scriptPath : String) (res : String → String) (file : String) :
    List Effect :=
  [.openFile (testPath file) true, .exec interp [scriptPath] (some (testPath file)) true,
    .println (res file)]

/-- Whether a text begins with a white-space character. -/
def startsWithSpace (s : String) : Bool :=
  match s.data with
  | c :: _ => IsSpace c
  | [] => false

/-- Whether a text ends with a white-space character. -/
def endsWithSpace (s : String) : Bool :=
  match s.data.getLast? with
  | some c => IsSpace c
  | none => false

/-- The value of a decimal numeral read from the left, starting from `acc`. -/
def digitsValue (acc : Nat) (cs : List Char) : Nat :=
  cs.foldl (fun a c => a * 10 + (c.toNat - 48)) acc

/-! ## Concrete documents and hosts -/

/-- A sample table with one header row and one data row of two cells. -/
def sampleTable (input output : String) : Node :=
  .element "table" none ["sample"]
    [.element "tbody" none []
      [.element "tr" none []
        [.element "th" none [] [.text "Sample Input 1"],
         .element "th" none [] [.text "Sample Output 1"]],
       .element "tr" none []
        [.element "td" none [] [.element "pre" none [] [.text input]],
         .element "td" none [] [.element "pre" none [] [.text output]]]]]

/-- A problem page with one sample block: input `3 4`, output `7`. -/
def addContainer : Loc :=
  ⟨[], .element "div" (some "instructions-container") []
    [.element "h1" none ["book-page-heading"] [.text "Add"],
     .element "div" none ["problembody"]
      [.element "p" none [] [.text "Add two numbers."], sampleTable "3 4\n" "7\n"]]⟩

/-- A sample block whose data row has the given cells. -/
def blockWithCells (cells : List Node) : Loc :=
  ⟨[.element "table" none ["sample"] []],
    .element "tbody" none []
      [.element "tr" none [] [.element "th" none [] [.text "Input"]],
       .element "tr" none [] cells]⟩

/-- A host with a fresh destination on which every call succeeds. -/
def freshHost : Env where
  stat := fun _ => false
  visit := fun _ => .page [addContainer.node]
  requestURL := fun url => url
  mkdirAll := fun _ => true
  create := fun _ => none
  output := fun _ _ _ => none
  getwd := none
  readDir := fun _ => none
  openFile := fun _ => false

/-- A host on which every path already exists. -/
def occupiedHost : Env :=
  { freshHost with stat := fun _ => true }

/-- A host with an interpreter, a listing of `tests/` and a candidate program
that echoes its input: the fixture `0.in` holds `3 4`. -/
def echoHost : Env where
  stat := fun _ => false
  visit := fun _ => .rejected
  requestURL := fun url => url
  mkdirAll := fun _ => true
  create := fun _ => none
  output := fun name _ stdin =>
    if name == "which" then some "/usr/bin/python3\n"
    else if stdin == some (testPath "0.in") then some "3 4\n"
    else none
  getwd := some "/work"
  readDir := fun _ => some ["0.in", "0.out"]
  openFile := fun _ => true

/-- A host whose candidate program fails on `1.in` only, all fixtures being
readable. -/
def failingSecondHost : Env :=
  { echoHost with
    output := fun name _ stdin =>
      if name == "which" then some "/usr/bin/python3\n"
      else if stdin == some (testPath "1.in") then none
      else some "ok\n"
    readDir := fun _ => some ["0.in", "0.out", "1.in", "1.out", "2.in", "2.out"] }

/-- The same candidate program and listing, the fixture `0.in` not being
readable. -/
def lockedFirstHost : Env :=
  { failingSecondHost with openFile := fun p => p != testPath "0.in" }

/-- A host whose candidate program succeeds on every input and whose only
fixture cannot be opened. -/
def unreadableHost : Env :=
  { echoHost with
    output := fun name _ _ => if name == "which" then some "/usr/bin/python3\n" else some "ok\n"
    readDir := fun _ => some ["0.in"]
    openFile := fun _ => false }

/-! ## Lemmas on strings -/

theorem dropWhile_head_not {α : Type} (p : α → Bool) (l : List α) (c : α)
    (h : (l.dropWhile p).head? = some c) : p c = false := by
  have := List.head?_dropWhile_not p l
  rw [h] at this
  simpa using this

theorem trim_data (t : String) :
    (TrimSpace t).data = ((t.data.dropWhile IsSpace).reverse.dropWhile IsSpace).reverse := rfl

theorem trim_head_not (l : List Char) (c : Char)
    (h : (((l.dropWhile IsSpace).reverse.dropWhile IsSpace).reverse).head? = some c) :
    IsSpace c = false := by
  have hpre : ((l.dropWhile IsSpace).reverse.dropWhile IsSpace).reverse <+: l.dropWhile IsSpace := by
    have := List.dropWhile_suffix (l := (l.dropWhile IsSpace).reverse) IsSpace
    have h2 := List.reverse_prefix.mpr this
    simpa using h2
  obtain ⟨r, hr⟩ := hpre
  apply dropWhile_head_not IsSpace l c
  rw [← hr]
  cases hx : ((l.dropWhile IsSpace).reverse.dropWhile IsSpace).reverse with
  | nil => rw [hx] at h; simp at h
  | cons a as => rw [hx] at h; simpa using h

theorem trim_last_not (l : List Char) (c : Char)
    (h : (((l.dropWhile IsSpace).reverse.dropWhile IsSpace).reverse).getLast? = some c) :
    IsSpace c = false := by
  rw [List.getLast?_reverse] at h
  exact dropWhile_head_not IsSpace _ c h

theorem trim_nil_iff (l : List Char) :
    ((l.dropWhile IsSpace).reverse.dropWhile IsSpace).reverse = [] ↔ l.all IsSpace = true := by
  constructor
  · intro h
    have h1 : ∀ x ∈ l.dropWhile IsSpace, IsSpace x = true := by
      have := List.reverse_eq_nil_iff.mp h
      have h2 := List.dropWhile_eq_nil_iff.mp this
      intro x hx
      exact h2 x (List.mem_reverse.mpr hx)
    have h3 : l.dropWhile IsSpace = [] := by
      cases hd : l.dropWhile IsSpace with
      | nil => rfl
      | cons a as =>
        have ha := dropWhile_head_not IsSpace l a (by rw [hd]; rfl)
        have := h1 a (by rw [hd]; exact List.mem_cons_self _ _)
        rw [ha] at this
        cases this
    have := List.dropWhile_eq_nil_iff.mp h3
    simpa [List.all_eq_true] using this
  · intro h
    have h3 : l.dropWhile IsSpace = [] := by
      apply List.dropWhile_eq_nil_iff.mpr
      simpa [List.all_eq_true] using h
    simp [h3]

theorem fixtureText_data (t : String) :
    (fixtureText t).data = (TrimSpace t).data ++ ['\n'] := by
  simp [fixtureText, String.data_append]

theorem digitChar_value (d : Nat) (h : d < 10) : (Nat.digitChar d).toNat - 48 = d := by
  interval_cases d <;> rfl

theorem digitsValue_toDigitsCore (fuel : Nat) :
    ∀ (n : Nat) (ds : List Char), n < fuel →
      digitsValue 0 (Nat.toDigitsCore 10 fuel n ds) = digitsValue n ds := by
  induction fuel with
  | zero => intro n ds h; omega
  | succ f ih =>
    intro n ds h
    simp only [Nat.toDigitsCore]
    split
    · rename_i h0
      have hn : n % 10 = n := by omega
      simp only [digitsValue, List.foldl_cons, digitChar_value (n % 10) (Nat.mod_lt _ (by decide))]
      rw [hn, Nat.zero_mul, Nat.zero_add]
    · rename_i h0
      rw [ih (n / 10) _ (by omega)]
      simp only [digitsValue, List.foldl_cons, digitChar_value (n % 10) (Nat.mod_lt _ (by decide))]
      congr 1
      omega

theorem digitsValue_Sprint (i : Nat) : digitsValue 0 (Sprint i).data = i := by
  have := digitsValue_toDigitsCore (i + 1) i [] (by omega)
  simpa [Sprint, toString, Nat.repr, Nat.toDigits, digitsValue] using this

theorem Sprint_injective (i j : Nat) (h : Sprint i = Sprint j) : i = j := by
  have := congrArg (fun s => digitsValue 0 s.data) h
  simpa [digitsValue_Sprint] using this

theorem fixturePath_injective (d : String) (i j : Nat) (x y : String)
    (hx : x = ".in" ∨ x = ".out") (hy : y = ".in" ∨ y = ".out")
    (h : fixturePath d i x = fixturePath d j y) : i = j ∧ x = y := by
  simp only [fixturePath, Path.join.injEq, List.cons.injEq, and_true, true_and] at h
  have hd : (Sprint i).data ++ x.data = (Sprint j).data ++ y.data := by
    have := congrArg String.data h
    simpa [String.data_append] using this
  have hxy : x = y := by
    have hl := congrArg List.getLast? hd
    rcases hx with rfl | rfl <;> rcases hy with rfl | rfl
    · rfl
    · simp [List.getLast?_append] at hl
    · simp [List.getLast?_append] at hl
    · rfl
  subst hxy
  refine ⟨?_, rfl⟩
  have := List.append_cancel_right hd
  exact Sprint_injective i j (String.ext this)

/-! ## Lemmas on the extraction -/

theorem readme_ne_join (d : String) (l : List String) : readmePath d ≠ Path.join l := by
  simp [readmePath]

theorem createAttempts_append (a b : List Effect) :
    createAttempts (a ++ b) = createAttempts a ++ createAttempts b := by
  simp [createAttempts]

theorem createdFiles_append (a b : List Effect) :
    createdFiles (a ++ b) = createdFiles a ++ createdFiles b := by
  simp [createdFiles]

theorem printed_append (a b : List Effect) :
    printed (a ++ b) = printed a ++ printed b := by
  simp [printed]

theorem writesTo_append (p : Path) (a b : List Effect) :
    writesTo p (a ++ b) = writesTo p a ++ writesTo p b := by
  simp [writesTo]

theorem createAttempts_createAndWrite (env : Env) (p : Path) (c : String) :
    createAttempts (createAndWrite env p c) = [p] := by
  unfold createAndWrite
  cases env.create p <;> simp [createAttempts]

theorem createdFiles_createAndWrite (env : Env) (p : Path) (c : String) :
    createdFiles (createAndWrite env p c) = if env.create p = none then [p] else [] := by
  unfold createAndWrite
  cases env.create p <;> simp [createdFiles]

theorem printed_createAndWrite (env : Env) (p : Path) (c : String) :
    printed (createAndWrite env p c) = (env.create p).toList := by
  unfold createAndWrite
  cases env.create p <;> simp [printed]

theorem writesTo_createAndWrite (env : Env) (q p : Path) (c : String) :
    writesTo q (createAndWrite env p c) =
      if p = q ∧ env.create p = none then [c] else [] := by
  unfold createAndWrite
  by_cases h : p = q <;> cases env.create p <;> simp [writesTo, h]

theorem createAttempts_sampleCallback (env : Env) (d : String) (r : Path) (i : Nat) (s : Loc) :
    createAttempts (sampleCallback env d r i s) =
      [fixturePath d i ".in", fixturePath d i ".out"] := by
  simp only [sampleCallback, createAttempts_append, createAttempts_createAndWrite]
  simp [createAttempts]

theorem createdFiles_sampleCallback (env : Env) (d : String) (r : Path) (i : Nat) (s : Loc) :
    createdFiles (sampleCallback env d r i s) =
      (if env.create (fixturePath d i ".in") = none then [fixturePath d i ".in"] else []) ++
      (if env.create (fixturePath d i ".out") = none then [fixturePath d i ".out"] else []) := by
  simp only [sampleCallback, createdFiles_append, createdFiles_createAndWrite]
  simp [createdFiles]

theorem printed_sampleCallback (env : Env) (d : String) (r : Path) (i : Nat) (s : Loc) :
    printed (sampleCallback env d r i s) =
      (env.create (fixturePath d i ".in")).toList ++
      (env.create (fixturePath d i ".out")).toList := by
  simp only [sampleCallback, printed_append, printed_createAndWrite]
  simp [printed]

theorem writesTo_fixture_sampleCallback (env : Env) (d : String) (i j : Nat) (s : Loc)
    (x : String) :
    writesTo (fixturePath d j x) (sampleCallback env d (readmePath d) i s) =
      (if fixturePath d i ".in" = fixturePath d j x ∧ env.create (fixturePath d i ".in") = none
        then [inContent s] else []) ++
      (if fixturePath d i ".out" = fixturePath d j x ∧ env.create (fixturePath d i ".out") = none
        then [outContent s] else []) := by
  have hr : readmePath d ≠ fixturePath d j x := readme_ne_join d _
  simp only [sampleCallback, writesTo_append, writesTo_createAndWrite]
  simp [writesTo, hr]

theorem flatMap_range_succ {β : Type} (g : Nat → List β) (n : Nat) :
    (List.range (n + 1)).flatMap g = g 0 ++ (List.range n).flatMap (fun i => g (i + 1)) := by
  rw [List.range_succ_eq_map]
  simp [List.flatMap_cons, List.flatMap_map, Function.comp_def]

theorem createAttempts_EachFrom (env : Env) (d : String) (r : Path) :
    ∀ (l : List Loc) (k : Nat),
      createAttempts (EachFrom (sampleCallback env d r) k l) =
        (List.range l.length).flatMap (fun i =>
          [fixturePath d (k + i) ".in", fixturePath d (k + i) ".out"]) := by
  intro l
  induction l with
  | nil => intro k; simp [EachFrom, createAttempts]
  | cons s rest ih =>
    intro k
    simp only [EachFrom, createAttempts_append, createAttempts_sampleCallback, ih (k + 1),
      List.length_cons]
    rw [flatMap_range_succ]
    simp [Nat.add_assoc, Nat.add_comm 1]

theorem createdFiles_EachFrom (env : Env) (d : String) (r : Path) (l : List Loc) (k : Nat) :
    createdFiles (EachFrom (sampleCallback env d r) k l) =
      (createAttempts (EachFrom (sampleCallback env d r) k l)).filter
        (fun p => (env.create p).isNone) := by
  induction l generalizing k with
  | nil => simp [EachFrom, createAttempts, createdFiles]
  | cons s rest ih =>
    simp only [EachFrom, createAttempts_append, createdFiles_append, createAttempts_sampleCallback,
      createdFiles_sampleCallback, ih (k + 1), List.filter_append]
    congr 1
    cases h1 : env.create (fixturePath d k ".in") <;>
      cases h2 : env.create (fixturePath d k ".out") <;>
      simp [List.filter_cons, h1, h2]

theorem printed_EachFrom (env : Env) (d : String) (r : Path) (l : List Loc) (k : Nat) :
    printed (EachFrom (sampleCallback env d r) k l) =
      (createAttempts (EachFrom (sampleCallback env d r) k l)).filterMap env.create := by
  induction l generalizing k with
  | nil => simp [EachFrom, createAttempts, printed]
  | cons s rest ih =>
    simp only [EachFrom, createAttempts_append, printed_append, createAttempts_sampleCallback,
      printed_sampleCallback, ih (k + 1), List.filterMap_append]
    congr 1
    cases h1 : env.create (fixturePath d k ".in") <;>
      cases h2 : env.create (fixturePath d k ".out") <;>
      simp [List.filterMap_cons, h1, h2]

theorem fixturePath_in_in (d : String) (i j : Nat) :
    fixturePath d i ".in" = fixturePath d j ".in" ↔ i = j :=
  ⟨fun h => (fixturePath_injective d i j _ _ (Or.inl rfl) (Or.inl rfl) h).1, fun h => by rw [h]⟩

theorem fixturePath_out_out (d : String) (i j : Nat) :
    fixturePath d i ".out" = fixturePath d j ".out" ↔ i = j :=
  ⟨fun h => (fixturePath_injective d i j _ _ (Or.inr rfl) (Or.inr rfl) h).1, fun h => by rw [h]⟩

theorem fixturePath_in_out (d : String) (i j : Nat) :
    fixturePath d i ".in" ≠ fixturePath d j ".out" := by
  intro h
  have := (fixturePath_injective d i j _ _ (Or.inl rfl) (Or.inr rfl) h).2
  exact absurd this (by decide)

theorem fixturePath_out_in (d : String) (i j : Nat) :
    fixturePath d i ".out" ≠ fixturePath d j ".in" :=
  fun h => fixturePath_in_out d j i h.symm

theorem writesTo_in_EachFrom_lt (env : Env) (d : String) (j : Nat) :
    ∀ (l : List Loc) (k : Nat), j < k →
      writesTo (fixturePath d j ".in") (EachFrom (sampleCallback env d (readmePath d)) k l) = [] := by
  intro l
  induction l with
  | nil => intro k _; simp [EachFrom, writesTo]
  | cons s rest ih =>
    intro k hk
    have hne : ¬ k = j := by omega
    simp [EachFrom, writesTo_append, writesTo_fixture_sampleCallback, fixturePath_in_in,
      fixturePath_out_in, hne, ih (k + 1) (by omega)]

theorem writesTo_out_EachFrom_lt (env : Env) (d : String) (j : Nat) :
    ∀ (l : List Loc) (k : Nat), j < k →
      writesTo (fixturePath d j ".out") (EachFrom (sampleCallback env d (readmePath d)) k l) = [] := by
  intro l
  induction l with
  | nil => intro k _; simp [EachFrom, writesTo]
  | cons s rest ih =>
    intro k hk
    have hne : ¬ k = j := by omega
    simp [EachFrom, writesTo_append, writesTo_fixture_sampleCallback, fixturePath_out_out,
      fixturePath_in_out, hne, ih (k + 1) (by omega)]

theorem writesTo_in_EachFrom (env : Env) (d : String) :
    ∀ (l : List Loc) (k i : Nat) (s : Loc), l[i]? = some s →
      writesTo (fixturePath d (k + i) ".in") (EachFrom (sampleCallback env d (readmePath d)) k l) =
        if env.create (fixturePath d (k + i) ".in") = none then [inContent s] else [] := by
  intro l
  induction l with
  | nil => intro k i s h; simp at h
  | cons s0 rest ih =>
    intro k i s h
    cases i with
    | zero =>
      simp only [List.getElem?_cons_zero, Option.some.injEq] at h
      subst h
      simp [EachFrom, writesTo_append, writesTo_fixture_sampleCallback, fixturePath_out_in,
        writesTo_in_EachFrom_lt env d k rest (k + 1) (by omega)]
    | succ i =>
      simp only [List.getElem?_cons_succ] at h
      have hne : ¬ k = k + (i + 1) := by omega
      have := ih (k + 1) i s h
      rw [show k + 1 + i = k + (i + 1) by omega] at this
      simp [EachFrom, writesTo_append, writesTo_fixture_sampleCallback, fixturePath_in_in,
        fixturePath_out_in, hne, this]

theorem writesTo_out_EachFrom (env : Env) (d : String) :
    ∀ (l : List Loc) (k i : Nat) (s : Loc), l[i]? = some s →
      writesTo (fixturePath d (k + i) ".out") (EachFrom (sampleCallback env d (readmePath d)) k l) =
        if env.create (fixturePath d (k + i) ".out") = none then [outContent s] else [] := by
  intro l
  induction l with
  | nil => intro k i s h; simp at h
  | cons s0 rest ih =>
    intro k i s h
    cases i with
    | zero =>
      simp only [List.getElem?_cons_zero, Option.some.injEq] at h
      subst h
      simp [EachFrom, writesTo_append, writesTo_fixture_sampleCallback, fixturePath_in_out,
        writesTo_out_EachFrom_lt env d k rest (k + 1) (by omega)]
    | succ i =>
      simp only [List.getElem?_cons_succ] at h
      have hne : ¬ k = k + (i + 1) := by omega
      have := ih (k + 1) i s h
      rw [show k + 1 + i = k + (i + 1) by omega] at this
      simp [EachFrom, writesTo_append, writesTo_fixture_sampleCallback, fixturePath_out_out,
        fixturePath_in_out, hne, this]

theorem writesTo_sampleCallback_failures (env : Env) (d : String) (i : Nat) (s : Loc) (p : Path) :
    writesTo p (sampleCallback env d (readmePath d) i s) =
      if env.create p = none ∨ p = readmePath d then
        writesTo p (sampleCallback (noCreateFailure env) d (readmePath d) i s)
      else [] := by
  have h1 : readmePath d ≠ fixturePath d i ".in" := readme_ne_join d _
  have h2 : readmePath d ≠ fixturePath d i ".out" := readme_ne_join d _
  simp only [sampleCallback, writesTo_append, writesTo_createAndWrite, noCreateFailure]
  by_cases hp : p = readmePath d
  · subst hp
    simp [h1.symm, h2.symm]
  · have hp2 : ¬ readmePath d = p := fun h => hp h.symm
    by_cases ha : fixturePath d i ".in" = p
    · have hb : ¬ fixturePath d i ".out" = p := by
        rw [← ha]; exact fixturePath_out_in d i i
      subst ha
      by_cases hc : env.create (fixturePath d i ".in") = none <;>
        simp [writesTo, hp2, hb, hc, hp]
    · by_cases hb : fixturePath d i ".out" = p
      · subst hb
        by_cases hc : env.create (fixturePath d i ".out") = none <;>
          simp [writesTo, hp2, ha, hc, hp]
      · by_cases hc : env.create p = none <;> simp [writesTo, hp2, ha, hb, hc, hp]

theorem writesTo_EachFrom_failures (env : Env) (d : String) (p : Path) :
    ∀ (l : List Loc) (k : Nat),
      writesTo p (EachFrom (sampleCallback env d (readmePath d)) k l) =
        if env.create p = none ∨ p = readmePath d then
          writesTo p (EachFrom (sampleCallback (noCreateFailure env) d (readmePath d)) k l)
        else [] := by
  intro l
  induction l with
  | nil => intro k; simp [EachFrom, writesTo]
  | cons s rest ih =>
    intro k
    simp only [EachFrom, writesTo_append]
    rw [ih (k + 1), writesTo_sampleCallback_failures]
    split <;> simp

theorem effects_andThen (es : List Effect) (r : Run) :
    (effects es).andThen r = ⟨es ++ r.trace, r.exit⟩ := rfl

theorem main_test (env : Env) (flag scriptPath : String) (more : List String)
    (hflag : flag = "-t" ∨ flag = "--test") :
    main env (flag :: scriptPath :: more) =
      (effects [.println "Running tests..."]).andThen
        ((testScript env scriptPath).andThen ⟨[], some 0⟩) := by
  rcases hflag with rfl | rfl
  · have h1 : HasPrefix "-t" "-" = true := by decide
    have h2 : ("-t" == "--help") = false := by decide
    simp [main, h1, h2]
  · have h1 : HasPrefix "--test" "-" = true := by decide
    have h2 : ("--test" == "--help") = false := by decide
    simp [main, h1, h2]

theorem testScript_loop (env : Env) (scriptPath found pwd : String) (files : List String)
    (hext : Ext scriptPath = ".py")
    (hwhich : env.output "which" ["python3"] none = some found)
    (hwd : env.getwd = some pwd)
    (hdir : env.readDir (.join [pwd, "tests"]) = some files) :
    testScript env scriptPath =
      (effects [.exec "which" ["python3"] none true, .getwd, .readDir (.join [pwd, "tests"])]).andThen
        (runFixtures env (TrimSpace found) scriptPath files) := by
  simp [testScript, hext, hwhich, hwd, testDir, hdir]

theorem runFixtures_all_succeed (env : Env) (interp scriptPath : String) (res : String → String) :
    ∀ files : List String,
      (∀ f ∈ inputFixtures files, env.openFile (testPath f) = true ∧
        env.output interp [scriptPath] (some (testPath f)) = some (res f)) →
      runFixtures env interp scriptPath files =
        effects ((inputFixtures files).flatMap (fixtureSteps interp scriptPath res)) := by
  intro files
  induction files with
  | nil => intro _; rfl
  | cons file rest ih =>
    intro h
    by_cases hin : Ext file = ".in"
    · have hmem : file ∈ inputFixtures (file :: rest) := by simp [inputFixtures, hin]
      obtain ⟨ho, hr⟩ := h file hmem
      have hrest := ih (fun f hf => h f (by
        simp only [inputFixtures, List.mem_filter] at hf ⊢
        exact ⟨List.mem_cons_of_mem _ hf.1, hf.2⟩))
      simp [runFixtures, hin, runFixture, ho, hr, hrest, effects_andThen, inputFixtures,
        fixtureSteps]
      simp [effects]
    · have hrest := ih (fun f hf => h f (by
        simp only [inputFixtures, List.mem_filter] at hf ⊢
        exact ⟨List.mem_cons_of_mem _ hf.1, hf.2⟩))
      simp [runFixtures, hin, hrest, inputFixtures]

theorem runFixtures_first_failure (env : Env) (interp scriptPath : String)
    (res : String → String) :
    ∀ (files : List String) (k : Nat) (bad : String),
      (inputFixtures files)[k]? = some bad →
      (∀ f ∈ (inputFixtures files).take k, env.openFile (testPath f) = true ∧
        env.output interp [scriptPath] (some (testPath f)) = some (res f)) →
      env.openFile (testPath bad) = true →
      env.output interp [scriptPath] (some (testPath bad)) = none →
      runFixtures env interp scriptPath files =
        ⟨((inputFixtures files).take k).flatMap (fixtureSteps interp scriptPath res) ++
          [.openFile (testPath bad) true,
           .exec interp [scriptPath] (some (testPath bad)) false,
           .logFatal ("An issue occured during " ++ scriptPath ++ " file execution.")],
          some 1⟩ := by
  intro files
  induction files with
  | nil => intro k bad hk; simp [inputFixtures] at hk
  | cons file rest ih =>
    intro k bad hk hok hopen hfail
    by_cases hin : Ext file = ".in"
    · have hcons : inputFixtures (file :: rest) = file :: inputFixtures rest := by
        simp [inputFixtures, hin]
      rw [hcons] at hk hok ⊢
      cases k with
      | zero =>
        simp only [List.getElem?_cons_zero, Option.some.injEq] at hk
        subst hk
        simp [runFixtures, hin, runFixture, hopen, hfail, Run.andThen]
      | succ k =>
        simp only [List.getElem?_cons_succ] at hk
        have h0 := hok file (by simp)
        have hrest := ih k bad hk (fun f hf => hok f (by
          simp only [List.take_succ_cons, List.mem_cons]; exact Or.inr hf)) hopen hfail
        simp [runFixtures, hin, runFixture, h0.1, h0.2, effects_andThen, hrest, fixtureSteps]
    · have hcons : inputFixtures (file :: rest) = inputFixtures rest := by
        simp [inputFixtures, hin]
      rw [hcons] at hk hok ⊢
      have := ih k bad hk hok hopen hfail
      simpa [runFixtures, hin] using this

theorem launched_append (a b : List Effect) :
    launched (a ++ b) = launched a ++ launched b := by
  simp [launched]

theorem openAttempts_append (a b : List Effect) :
    openAttempts (a ++ b) = openAttempts a ++ openAttempts b := by
  simp [openAttempts]

theorem launched_fixtureSteps (interp scriptPath : String) (res : String → String)
    (l : List String) :
    launched (l.flatMap (fixtureSteps interp scriptPath res)) = l.map testPath := by
  induction l with
  | nil => rfl
  | cons f rest ih =>
    rw [List.flatMap_cons, launched_append, ih]
    simp [fixtureSteps, launched]

theorem openAttempts_fixtureSteps (interp scriptPath : String) (res : String → String)
    (l : List String) :
    openAttempts (l.flatMap (fixtureSteps interp scriptPath res)) = l.map testPath := by
  induction l with
  | nil => rfl
  | cons f rest ih =>
    rw [List.flatMap_cons, openAttempts_append, ih]
    simp [fixtureSteps, openAttempts]

theorem printed_fixtureSteps (interp scriptPath : String) (res : String → String)
    (l : List String) :
    printed (l.flatMap (fixtureSteps interp scriptPath res)) = l.map res := by
  induction l with
  | nil => rfl
  | cons f rest ih =>
    rw [List.flatMap_cons, printed_append, ih]
    simp [fixtureSteps, printed]

theorem printed_runFixtures (env : Env) (interp scriptPath : String) :
    ∀ files : List String,
      printed (runFixtures env interp scriptPath files).trace =
        (succeededFixtures env interp scriptPath files).map
          (capturedOutput env interp scriptPath) := by
  intro files
  induction files with
  | nil => rfl
  | cons file rest ih =>
    by_cases hin : Ext file = ".in"
    · have hcons : inputFixtures (file :: rest) = file :: inputFixtures rest := by
        simp [inputFixtures, hin]
      unfold succeededFixtures at ih ⊢
      rw [hcons]
      cases ho : env.openFile (testPath file) with
      | false =>
        simp [runFixtures, hin, runFixture, ho, Run.andThen, printed, fixtureSucceeds]
      | true =>
        cases hr : env.output interp [scriptPath] (some (testPath file)) with
        | none =>
          simp [runFixtures, hin, runFixture, ho, hr, Run.andThen, printed, fixtureSucceeds]
        | some result =>
          have hp : ∀ t : List Effect,
              printed (Effect.openFile (testPath file) true ::
                Effect.exec interp [scriptPath] (some (testPath file)) true ::
                Effect.println result :: t) = result :: printed t := by
            intro t; simp [printed]
          simp [runFixtures, hin, runFixture, ho, hr, effects_andThen, hp, ih, fixtureSucceeds,
            capturedOutput]
    · have hcons : inputFixtures (file :: rest) = inputFixtures rest := by
        simp [inputFixtures, hin]
      unfold succeededFixtures at ih ⊢
      rw [hcons]
      simpa [runFixtures, hin] using ih

theorem openAttempts_runFixtures (env : Env) (interp scriptPath : String) :
    ∀ files : List String,
      openAttempts (runFixtures env interp scriptPath files).trace =
        ((inputFixtures files).take
          ((succeededFixtures env interp scriptPath files).length + 1)).map testPath := by
  intro files
  induction files with
  | nil => rfl
  | cons file rest ih =>
    by_cases hin : Ext file = ".in"
    · have hcons : inputFixtures (file :: rest) = file :: inputFixtures rest := by
        simp [inputFixtures, hin]
      unfold succeededFixtures at ih ⊢
      rw [hcons]
      cases ho : env.openFile (testPath file) with
      | false =>
        simp [runFixtures, hin, runFixture, ho, Run.andThen, openAttempts, fixtureSucceeds]
      | true =>
        cases hr : env.output interp [scriptPath] (some (testPath file)) with
        | none =>
          simp [runFixtures, hin, runFixture, ho, hr, Run.andThen, openAttempts,
            fixtureSucceeds]
        | some result =>
          have hp : ∀ t : List Effect,
              openAttempts (Effect.openFile (testPath file) true ::
                Effect.exec interp [scriptPath] (some (testPath file)) true ::
                Effect.println result :: t) = testPath file :: openAttempts t := by
            intro t; simp [openAttempts]
          simp [runFixtures, hin, runFixture, ho, hr, effects_andThen, hp, ih, fixtureSucceeds]
    · have hcons : inputFixtures (file :: rest) = inputFixtures rest := by
        simp [inputFixtures, hin]
      unfold succeededFixtures at ih ⊢
      rw [hcons]
      simpa [runFixtures, hin] using ih

theorem takeWhile_getElem_of_prefix {α : Type} (p : α → Bool) :
    ∀ (l : List α) (j : Nat) (a : α), l[j]? = some a → (∀ b ∈ l.take j, p b = true) →
      p a = true → (l.takeWhile p)[j]? = some a := by
  intro l
  induction l with
  | nil => intro j a h; simp at h
  | cons x rest ih =>
    intro j a h hbefore ha
    cases j with
    | zero =>
      simp only [List.getElem?_cons_zero, Option.some.injEq] at h
      subst h
      simp [List.takeWhile_cons, ha]
    | succ j =>
      simp only [List.getElem?_cons_succ] at h
      have hx : p x = true := hbefore x (by simp)
      have := ih j a h (fun b hb => hbefore b (by
        simp only [List.take_succ_cons, List.mem_cons]; exact Or.inr hb)) ha
      simp [List.takeWhile_cons, hx, this]

theorem output_getD (o : Option String) (h : o ≠ none) : o = some (o.getD "") := by
  cases o with
  | none => exact absurd rfl h
  | some v => rfl

theorem main_test_loop (env : Env) (flag scriptPath : String) (more : List String)
    (found pwd : String) (files : List String)
    (hflag : flag = "-t" ∨ flag = "--test")
    (hext : Ext scriptPath = ".py")
    (hwhich : env.output "which" ["python3"] none = some found)
    (hwd : env.getwd = some pwd)
    (hdir : env.readDir (.join [pwd, "tests"]) = some files) :
    main env (flag :: scriptPath :: more) =
      ⟨[.println "Running tests...", .exec "which" ["python3"] none true, .getwd,
          .readDir (.join [pwd, "tests"])] ++
          (runFixtures env (TrimSpace found) scriptPath files).trace,
        some ((runFixtures env (TrimSpace found) scriptPath files).exit.getD 0)⟩ := by
  rw [main_test env flag scriptPath more hflag,
    testScript_loop env scriptPath found pwd files hext hwhich hwd hdir]
  cases hx : (runFixtures env (TrimSpace found) scriptPath files).exit <;>
    simp [Run.andThen, effects, hx]

theorem Text_First (l : List Loc) : Text (First l) = cellText l.head? := by
  cases l with
  | nil => rfl
  | cons c rest => simp [Text, First, cellText, String.join]

theorem Text_Last (l : List Loc) : Text (Last l) = cellText l.getLast? := by
  unfold Text Last cellText
  cases l.getLast? with
  | none => rfl
  | some c => simp [String.join]

theorem logFatal_not_mem_createAndWrite (env : Env) (p : Path) (c msg : String) :
    Effect.logFatal msg ∉ createAndWrite env p c := by
  unfold createAndWrite
  cases env.create p <;> simp

/-- C2: the text written to the `.in` file of index i is the trimmed text of
the first cell of the last row of the i-th sample block followed by one
newline, the text written to the `.out` file that of the last cell; nothing
is written to a file whose creation failed. -/
theorem fixture_content_roundtrip (env : Env) (destination : String) (body : List Loc) (i : Nat)
    (hi : i < (sampleBlocks body).length) :
    writesTo (fixturePath destination i ".in")
        (extractSamples env destination (readmePath destination) body) =
        (if env.create (fixturePath destination i ".in") = none then
          [TrimSpace (cellText (inout (sampleBlocks body)[i]).head?) ++ "\n"] else []) ∧
      writesTo (fixturePath destination i ".out")
        (extractSamples env destination (readmePath destination) body) =
        (if env.create (fixturePath destination i ".out") = none then
          [TrimSpace (cellText (inout (sampleBlocks body)[i]).getLast?) ++ "\n"] else []) := by
  have hs : (sampleBlocks body)[i]? = some (sampleBlocks body)[i] := List.getElem?_eq_getElem hi
  have h1 := writesTo_in_EachFrom env destination (sampleBlocks body) 0 i _ hs
  have h2 := writesTo_out_EachFrom env destination (sampleBlocks body) 0 i _ hs
  rw [Nat.zero_add] at h1 h2
  unfold extractSamples
  rw [h1, h2]
  simp [inContent, outContent, fixtureText, Text_First, Text_Last]

/-- C2, on the page whose only sample block has the cells `3 4` and `7`. -/
theorem fixture_content_roundtrip_witness :
    0 < (sampleBlocks (problemBody addContainer)).length ∧
      writesTo (fixturePath "./add" 0 ".in")
        (extractSamples freshHost "./add" (readmePath "./add") (problemBody addContainer)) =
        ["3 4\n"] ∧
      writesTo (fixturePath "./add" 0 ".out")
        (extractSamples freshHost "./add" (readmePath "./add") (problemBody addContainer)) =
        ["7\n"] :=
  ⟨by decide,
    (fixture_content_roundtrip freshHost "./add" (problemBody addContainer) 0 (by decide)).1.trans
      (by decide),
    (fixture_content_roundtrip freshHost "./add" (problemBody addContainer) 0 (by decide)).2.trans
      (by decide)⟩

/-- C3, as stated, fails on the empty and on an all-blank cell text: the
persisted text is a lone newline, so it begins with a white-space character. -/
theorem fixtureText_empty_begins_with_newline :
    fixtureText "" = "\n" ∧ startsWithSpace (fixtureText "") = true ∧
      fixtureText " \t\n" = "\n" ∧ startsWithSpace (fixtureText " \t\n") = true := by
  decide

/-- C3, amended: the persisted text ends with a newline; what precedes that
newline is the trimmed cell text, which neither begins nor ends with a
white-space character; the persisted text itself begins with a white-space
character exactly when the cell text is empty or all white space, the
trimmed text being empty in that case. -/
theorem fixtureText_trimmed_newline (t : String) :
    (fixtureText t).data.getLast? = some '\n' ∧
      (fixtureText t).data.dropLast = (TrimSpace t).data ∧
      startsWithSpace (TrimSpace t) = false ∧
      endsWithSpace (TrimSpace t) = false ∧
      (TrimSpace t).data.isEmpty = t.data.all IsSpace ∧
      startsWithSpace (fixtureText t) = t.data.all IsSpace := by
  have hnil := trim_nil_iff t.data
  rw [← trim_data] at hnil
  have hstart : startsWithSpace (TrimSpace t) = false := by
    unfold startsWithSpace
    cases hx : (TrimSpace t).data with
    | nil => rfl
    | cons c rest =>
      apply trim_head_not t.data c
      rw [← trim_data, hx]; rfl
  have hempty : (TrimSpace t).data.isEmpty = t.data.all IsSpace := by
    cases hx : (TrimSpace t).data with
    | nil =>
      have := hnil.mp hx
      simp [this]
    | cons c rest =>
      have hne : ¬ t.data.all IsSpace = true := fun h => by
        have := hnil.mpr h
        rw [hx] at this
        cases this
      simp only [List.isEmpty_cons]
      exact (Bool.eq_false_iff.mpr hne).symm
  refine ⟨?_, ?_, hstart, ?_, hempty, ?_⟩
  · simp [fixtureText_data]
  · simp [fixtureText_data]
  · unfold endsWithSpace
    cases hx : (TrimSpace t).data.getLast? with
    | none => rfl
    | some c =>
      apply trim_last_not t.data c
      rw [← trim_data, hx]
  · rw [← hempty]
    unfold startsWithSpace at hstart ⊢
    rw [fixtureText_data]
    cases hx : (TrimSpace t).data with
    | nil => decide
    | cons c rest =>
      rw [hx] at hstart
      simpa using hstart

/-- C4: in an invocation that is neither the help nor the test mode, with the
destination being the second argument or, without one, `./` followed by the
problem name (the empty path after an unknown option), a destination for which
`os.Stat` returns a file info makes the program ask for that status and abort
with `log.Fatal`: these are its only two calls, so the page is not visited and
no directory or file is created or written. -/
theorem destination_guard_aborts_first (env : Env) (name : String) (rest : List String)
    (destination : String)
    (hmode : name ≠ "--help" ∧ name ≠ "-t" ∧ name ≠ "--test")
    (hdest : destination = rest.headD (if HasPrefix name "-" = true then "" else "./" ++ name))
    (hexists : env.stat (.raw destination) = true) :
    main env (name :: rest) =
        ⟨[.stat (.raw destination),
          .logFatal ("Directory " ++ destination ++ " already exists.\n" ++
            "If you wish to create another directory for the same problem,\n" ++
            "provide it as the second argument. [destination_path]" ++ usage)], some 1⟩ ∧
      ∀ e ∈ (main env (name :: rest)).trace, e.touchesWorld = false := by
  have h : main env (name :: rest) =
      ⟨[.stat (.raw destination),
        .logFatal ("Directory " ++ destination ++ " already exists.\n" ++
          "If you wish to create another directory for the same problem,\n" ++
          "provide it as the second argument. [destination_path]" ++ usage)], some 1⟩ := by
    subst hdest
    have h1 : (name == "--help") = false := beq_eq_false_iff_ne.mpr hmode.1
    have h2 : (name == "-t") = false := beq_eq_false_iff_ne.mpr hmode.2.1
    have h3 : (name == "--test") = false := beq_eq_false_iff_ne.mpr hmode.2.2
    by_cases hp : HasPrefix name "-" = true
    · simp only [hp, if_true] at hexists ⊢
      simp only [main, hp, h1, h2, h3, fetchMode, hexists, if_true, Bool.false_eq_true,
        if_false, Bool.or_self]
    · have hp1 : HasPrefix name "-" = false := Bool.eq_false_iff.mpr hp
      simp only [hp1, Bool.false_eq_true, if_false] at hexists ⊢
      simp only [main, hp1, fetchMode, hexists, if_true, Bool.false_eq_true, if_false]
  refine ⟨h, ?_⟩
  rw [h]
  intro e he
  simp only [List.mem_cons, List.mem_singleton, List.not_mem_nil, or_false] at he
  rcases he with rfl | rfl <;> rfl

/-- C4, on the default destination, on an explicit one and after an unknown
option. -/
theorem destination_guard_aborts_first_witness :
    occupiedHost.stat (.raw "./hello") = true ∧
      (main occupiedHost ["hello"]).trace.head? = some (.stat (.raw "./hello")) ∧
      (main occupiedHost ["hello"]).trace.length = 2 ∧
      (main occupiedHost ["hello"]).exit = some 1 ∧
      (main occupiedHost ["hello", "work/hello"]).trace.head? =
        some (.stat (.raw "work/hello")) ∧
      (main occupiedHost ["-x", "work/hello"]).exit = some 1 :=
  ⟨rfl,
    congrArg (fun r => r.trace.head?)
      (destination_guard_aborts_first occupiedHost "hello" [] "./hello"
        (by decide) (by decide) rfl).1,
    congrArg (fun r => r.trace.length)
      (destination_guard_aborts_first occupiedHost "hello" [] "./hello"
        (by decide) (by decide) rfl).1,
    congrArg Run.exit
      (destination_guard_aborts_first occupiedHost "hello" [] "./hello"
        (by decide) (by decide) rfl).1,
    congrArg (fun r => r.trace.head?)
      (destination_guard_aborts_first occupiedHost "hello" ["work/hello"] "work/hello"
        (by decide) (by decide) rfl).1,
    congrArg Run.exit
      (destination_guard_aborts_first occupiedHost "-x" ["work/hello"] "work/hello"
        (by decide) (by decide) rfl).1⟩

/-- C5: a test invocation whose script has an extension other than `.py`
prints the banner and aborts with `log.Fatal`; no command is run, the working
directory is not asked for, `tests/` is not listed and no fixture is opened,
whatever the host answers. -/
theorem unsupported_extension_aborts_first (env : Env) (flag scriptPath : String)
    (more : List String) (hflag : flag = "-t" ∨ flag = "--test")
    (hext : Ext scriptPath ≠ ".py") :
    main env (flag :: scriptPath :: more) =
      ⟨[.println "Running tests...",
        .logFatal ("Testing is not supported for ." ++ Ext scriptPath ++ " files")], some 1⟩ := by
  rw [main_test env flag scriptPath more hflag]
  simp [testScript, hext, fatal, Run.andThen, effects]

/-- C5, on a Ruby script, with a host where the interpreter exists and on one
where nothing does. -/
theorem unsupported_extension_aborts_first_witness :
    Ext "sol.rb" ≠ ".py" ∧
      main echoHost ["-t", "sol.rb"] =
        ⟨[.println "Running tests...",
          .logFatal "Testing is not supported for ..rb files"], some 1⟩ ∧
      main freshHost ["--test", "sol.rb"] =
        ⟨[.println "Running tests...",
          .logFatal "Testing is not supported for ..rb files"], some 1⟩ :=
  ⟨by decide,
    unsupported_extension_aborts_first echoHost "-t" "sol.rb" [] (Or.inl rfl) (by decide),
    unsupported_extension_aborts_first freshHost "--test" "sol.rb" [] (Or.inr rfl) (by decide)⟩

/-- C7: whatever creations fail, the extraction attempts the two fixture
files of every block, at the index of the block position; every failure is
printed; the files created are the attempted ones whose creation succeeded;
and each of them receives exactly what it receives when nothing fails. -/
theorem creation_failure_is_local (env : Env) (destination : String) (body : List Loc) :
    createAttempts (extractSamples env destination (readmePath destination) body) =
        fixturePaths destination (sampleBlocks body).length ∧
      printed (extractSamples env destination (readmePath destination) body) =
        (fixturePaths destination (sampleBlocks body).length).filterMap env.create ∧
      createdFiles (extractSamples env destination (readmePath destination) body) =
        (fixturePaths destination (sampleBlocks body).length).filter
          (fun p => (env.create p).isNone) ∧
      ∀ p, writesTo p (extractSamples env destination (readmePath destination) body) =
        if env.create p = none ∨ p = readmePath destination then
          writesTo p (extractSamples (noCreateFailure env) destination (readmePath destination) body)
        else [] := by
  have hattempts : createAttempts
      (extractSamples env destination (readmePath destination) body) =
      fixturePaths destination (sampleBlocks body).length := by
    unfold extractSamples
    rw [createAttempts_EachFrom]
    simp [fixturePaths]
  refine ⟨hattempts, ?_, ?_, ?_⟩
  · rw [← hattempts]
    exact printed_EachFrom env destination _ _ 0
  · rw [← hattempts]
    exact createdFiles_EachFrom env destination _ _ 0
  · intro p
    exact writesTo_EachFrom_failures env destination p _ 0

/-- C10: for every block and every host, the only text the callback writes
to the `.in` file of the block is the trimmed text of the first cell of the
last row followed by a newline, and to the `.out` file that of the last cell:
with a row made of a first cell, any cells between and a last cell, the cells
between do not appear in what is written; with a single cell both files
receive the same text; and for any number of cells, none included, the
callback attempts both files, never calls `log.Fatal` and prints nothing but
the errors of the two creations. -/
theorem fixture_pair_from_first_and_last_cell (env : Env) (destination : String) (i : Nat)
    (s : Loc) :
    writesTo (fixturePath destination i ".in")
        (sampleCallback env destination (readmePath destination) i s) =
        (if env.create (fixturePath destination i ".in") = none then
          [TrimSpace (cellText (inout s).head?) ++ "\n"] else []) ∧
      writesTo (fixturePath destination i ".out")
        (sampleCallback env destination (readmePath destination) i s) =
        (if env.create (fixturePath destination i ".out") = none then
          [TrimSpace (cellText (inout s).getLast?) ++ "\n"] else []) ∧
      (∀ (first last : Loc) (between : List Loc), inout s = first :: (between ++ [last]) →
        env.create (fixturePath destination i ".in") = none →
        env.create (fixturePath destination i ".out") = none →
        writesTo (fixturePath destination i ".in")
          (sampleCallback env destination (readmePath destination) i s) =
          [TrimSpace first.node.Text ++ "\n"] ∧
        writesTo (fixturePath destination i ".out")
          (sampleCallback env destination (readmePath destination) i s) =
          [TrimSpace last.node.Text ++ "\n"]) ∧
      ((inout s).length = 1 →
        env.create (fixturePath destination i ".in") = none →
        env.create (fixturePath destination i ".out") = none →
        writesTo (fixturePath destination i ".in")
          (sampleCallback env destination (readmePath destination) i s) =
        writesTo (fixturePath destination i ".out")
          (sampleCallback env destination (readmePath destination) i s)) ∧
      createAttempts (sampleCallback env destination (readmePath destination) i s) =
        [fixturePath destination i ".in", fixturePath destination i ".out"] ∧
      printed (sampleCallback env destination (readmePath destination) i s) =
        (env.create (fixturePath destination i ".in")).toList ++
        (env.create (fixturePath destination i ".out")).toList ∧
      ∀ msg, Effect.logFatal msg ∉
        sampleCallback env destination (readmePath destination) i s := by
  have hin : writesTo (fixturePath destination i ".in")
      (sampleCallback env destination (readmePath destination) i s) =
      (if env.create (fixturePath destination i ".in") = none then
        [TrimSpace (cellText (inout s).head?) ++ "\n"] else []) := by
    rw [writesTo_fixture_sampleCallback]
    simp [fixturePath_out_in, inContent, fixtureText, Text_First]
  have hout : writesTo (fixturePath destination i ".out")
      (sampleCallback env destination (readmePath destination) i s) =
      (if env.create (fixturePath destination i ".out") = none then
        [TrimSpace (cellText (inout s).getLast?) ++ "\n"] else []) := by
    rw [writesTo_fixture_sampleCallback]
    simp [fixturePath_in_out, outContent, fixtureText, Text_Last]
  refine ⟨hin, hout, ?_, ?_, createAttempts_sampleCallback env destination _ i s,
    printed_sampleCallback env destination _ i s, ?_⟩
  · intro first last between hrow h1 h2
    rw [hin, hout, hrow]
    have hlast : (first :: (between ++ [last])).getLast? = some last := by
      rw [show first :: (between ++ [last]) = (first :: between) ++ [last] by simp]
      simp only [List.getLast?_append, List.getLast?_singleton]
      rfl
    simp [h1, h2, hlast, cellText]
  · intro h h1 h2
    obtain ⟨c, hc⟩ := List.length_eq_one.mp h
    rw [hin, hout, hc]
    simp [h1, h2]
  · intro msg
    simp [sampleCallback, logFatal_not_mem_createAndWrite]

/-- C10, on a block with three cells, where the middle one is written
nowhere, and on a block with one cell. -/
theorem fixture_pair_from_first_and_last_cell_witness :
    (writesTo (fixturePath "./p" 0 ".in") (sampleCallback freshHost "./p" (readmePath "./p") 0
        (blockWithCells [.element "td" none [] [.text " 1 2 "],
          .element "td" none [] [.text "ignored"], .element "td" none [] [.text "3\n"]])) =
        ["1 2\n"] ∧
      writesTo (fixturePath "./p" 0 ".out") (sampleCallback freshHost "./p" (readmePath "./p") 0
        (blockWithCells [.element "td" none [] [.text " 1 2 "],
          .element "td" none [] [.text "ignored"], .element "td" none [] [.text "3\n"]])) =
        ["3\n"]) ∧
      writesTo (fixturePath "./p" 0 ".in") (sampleCallback freshHost "./p" (readmePath "./p") 0
        (blockWithCells [.element "td" none [] [.text "5\n"]])) =
      writesTo (fixturePath "./p" 0 ".out") (sampleCallback freshHost "./p" (readmePath "./p") 0
        (blockWithCells [.element "td" none [] [.text "5\n"]])) :=
  ⟨⟨(fixture_pair_from_first_and_last_cell freshHost "./p" 0
      (blockWithCells [.element "td" none [] [.text " 1 2 "],
        .element "td" none [] [.text "ignored"], .element "td" none [] [.text "3\n"]])).1.trans
        (by decide),
    (fixture_pair_from_first_and_last_cell freshHost "./p" 0
      (blockWithCells [.element "td" none [] [.text " 1 2 "],
        .element "td" none [] [.text "ignored"], .element "td" none [] [.text "3\n"]])).2.1.trans
        (by decide)⟩,
    (fixture_pair_from_first_and_last_cell freshHost "./p" 0
      (blockWithCells [.element "td" none [] [.text "5\n"]])).2.2.2.1 (by decide) rfl rfl⟩

/-- C6, as stated, fails when a fixture cannot be opened: the candidate
program succeeds on `0.in` and fails first on `1.in`, at position 1, yet the
runner aborts on opening `0.in` and launches the program on no fixture. -/
theorem strict_stop_unopenable_fixture :
    inputFixtures ["0.in", "0.out", "1.in", "1.out", "2.in", "2.out"] = ["0.in", "1.in", "2.in"] ∧
      lockedFirstHost.output "/usr/bin/python3" ["sol.py"] (some (testPath "0.in")) =
        some "ok\n" ∧
      lockedFirstHost.output "/usr/bin/python3" ["sol.py"] (some (testPath "1.in")) = none ∧
      launched (main lockedFirstHost ["-t", "sol.py"]).trace = [] ∧
      launched (main lockedFirstHost ["-t", "sol.py"]).trace ≠
        ((inputFixtures ["0.in", "0.out", "1.in", "1.out", "2.in", "2.out"]).take 2).map
          testPath ∧
      main lockedFirstHost ["-t", "sol.py"] =
        ⟨[.println "Running tests...", .exec "which" ["python3"] none true, .getwd,
          .readDir (.join ["/work", "tests"]), .openFile (testPath "0.in") false,
          .logFatal "Cound not open 0.in"], some 1⟩ := by
  decide

/-- C6, amended: when the fixtures at the positions 0 to k of the input
fixtures can be opened and k is the first position whose run fails, the runner
opens and launches the program on exactly the fixtures at the positions 0 to
k, in order, on none after k, and ends with `log.Fatal`. -/
theorem strict_stop_at_first_failure (env : Env) (flag scriptPath : String) (more : List String)
    (found pwd : String) (files : List String) (k : Nat) (bad : String)
    (hflag : flag = "-t" ∨ flag = "--test")
    (hext : Ext scriptPath = ".py")
    (hwhich : env.output "which" ["python3"] none = some found)
    (hwd : env.getwd = some pwd)
    (hdir : env.readDir (.join [pwd, "tests"]) = some files)
    (hk : (inputFixtures files)[k]? = some bad)
    (hopen : ∀ f ∈ (inputFixtures files).take (k + 1), env.openFile (testPath f) = true)
    (hok : ∀ f ∈ (inputFixtures files).take k,
      env.output (TrimSpace found) [scriptPath] (some (testPath f)) ≠ none)
    (hfail : env.output (TrimSpace found) [scriptPath] (some (testPath bad)) = none) :
    launched (main env (flag :: scriptPath :: more)).trace =
        ((inputFixtures files).take (k + 1)).map testPath ∧
      openAttempts (main env (flag :: scriptPath :: more)).trace =
        ((inputFixtures files).take (k + 1)).map testPath ∧
      (main env (flag :: scriptPath :: more)).exit = some 1 ∧
      (main env (flag :: scriptPath :: more)).trace.getLast? =
        some (.logFatal ("An issue occured during " ++ scriptPath ++ " file execution.")) := by
  have htake : (inputFixtures files).take (k + 1) = (inputFixtures files).take k ++ [bad] := by
    rw [List.take_succ, hk]; rfl
  have hloop := runFixtures_first_failure env (TrimSpace found) scriptPath
    (fun f => (env.output (TrimSpace found) [scriptPath] (some (testPath f))).getD "")
    files k bad hk
    (fun f hf => ⟨hopen f (by rw [htake]; exact List.mem_append_left _ hf),
      output_getD _ (hok f hf)⟩)
    (hopen bad (by rw [htake]; simp)) hfail
  rw [main_test_loop env flag scriptPath more found pwd files hflag hext hwhich hwd hdir, hloop,
    htake]
  refine ⟨?_, ?_, rfl, ?_⟩
  · simp only [launched_append, launched_fixtureSteps, List.map_append]
    simp [launched]
  · simp only [openAttempts_append, openAttempts_fixtureSteps, List.map_append]
    simp [openAttempts]
  · have hlast : ∀ (a b : List Effect) (x y z : Effect),
        (a ++ (b ++ [x, y, z])).getLast? = some z := by
      intro a b x y z
      rw [show a ++ (b ++ [x, y, z]) = (a ++ b ++ [x, y]) ++ [z] by simp]
      simp only [List.getLast?_append, List.getLast?_singleton]
      rfl
    exact hlast _ _ _ _ _

/-- C6, on the fixtures 0, 1, 2 with a failure on fixture 1: fixture 2 is
never attempted. -/
theorem strict_stop_at_first_failure_witness :
    launched (main failingSecondHost ["-t", "sol.py"]).trace =
        [testPath "0.in", testPath "1.in"] ∧
      openAttempts (main failingSecondHost ["-t", "sol.py"]).trace =
        [testPath "0.in", testPath "1.in"] ∧
      (main failingSecondHost ["-t", "sol.py"]).exit = some 1 :=
  have h := strict_stop_at_first_failure failingSecondHost "-t" "sol.py" [] "/usr/bin/python3\n"
    "/work" ["0.in", "0.out", "1.in", "1.out", "2.in", "2.out"] 1 "1.in" (Or.inl rfl)
    (by decide) rfl rfl rfl (by decide) (fun _ _ => rfl) (by decide) (by decide)
  ⟨h.1, h.2.1, h.2.2.1⟩

/-- C8, as stated, fails when a fixture cannot be opened: the candidate
program succeeds on every input and the listing holds the input fixture
`0.in`, yet the runner executes nothing and aborts. -/
theorem listing_unopenable_fixture :
    unreadableHost.readDir (.join ["/work", "tests"]) = some ["0.in"] ∧
      inputFixtures ["0.in"] = ["0.in"] ∧
      unreadableHost.output "/usr/bin/python3" ["sol.py"] (some (testPath "0.in")) =
        some "ok\n" ∧
      launched (main unreadableHost ["-t", "sol.py"]).trace = [] ∧
      launched (main unreadableHost ["-t", "sol.py"]).trace ≠
        (inputFixtures ["0.in"]).map testPath ∧
      (main unreadableHost ["-t", "sol.py"]).exit = some 1 := by
  decide

/-- C8, amended: when every input fixture of the listing can be opened and the
candidate program succeeds on each, the fixtures opened and executed are
exactly the entries of the listing whose extension is `.in`, in listing order
and once per entry, and the runner exits with status 0. -/
theorem runner_executes_input_fixtures (env : Env) (flag scriptPath : String)
    (more : List String) (found pwd : String) (files : List String)
    (hflag : flag = "-t" ∨ flag = "--test")
    (hext : Ext scriptPath = ".py")
    (hwhich : env.output "which" ["python3"] none = some found)
    (hwd : env.getwd = some pwd)
    (hdir : env.readDir (.join [pwd, "tests"]) = some files)
    (hopen : ∀ f ∈ inputFixtures files, env.openFile (testPath f) = true)
    (hok : ∀ f ∈ inputFixtures files,
      env.output (TrimSpace found) [scriptPath] (some (testPath f)) ≠ none) :
    launched (main env (flag :: scriptPath :: more)).trace =
        (files.filter (fun file => Ext file == ".in")).map testPath ∧
      openAttempts (main env (flag :: scriptPath :: more)).trace =
        (files.filter (fun file => Ext file == ".in")).map testPath ∧
      (main env (flag :: scriptPath :: more)).exit = some 0 := by
  have hloop := runFixtures_all_succeed env (TrimSpace found) scriptPath
    (fun f => (env.output (TrimSpace found) [scriptPath] (some (testPath f))).getD "")
    files (fun f hf => ⟨hopen f hf, output_getD _ (hok f hf)⟩)
  rw [main_test_loop env flag scriptPath more found pwd files hflag hext hwhich hwd hdir, hloop]
  refine ⟨?_, ?_, rfl⟩
  · simp only [effects, launched_append, launched_fixtureSteps]
    simp [launched, inputFixtures]
  · simp only [effects, openAttempts_append, openAttempts_fixtureSteps]
    simp [openAttempts, inputFixtures]

/-- C8, on a listing with one input fixture and its `.out` sibling. -/
theorem runner_executes_input_fixtures_witness :
    launched (main echoHost ["--test", "sol.py"]).trace = [testPath "0.in"] ∧
      openAttempts (main echoHost ["--test", "sol.py"]).trace = [testPath "0.in"] ∧
      (main echoHost ["--test", "sol.py"]).exit = some 0 :=
  runner_executes_input_fixtures echoHost "--test" "sol.py" [] "/usr/bin/python3\n" "/work"
    ["0.in", "0.out"] (Or.inr rfl) (by decide) rfl rfl rfl (fun _ _ => rfl) (by decide)

/-- C9, as stated, fails: `fmt.Println` adds a newline to the captured
output; for an echoing candidate on `3 4` followed by a newline the runner
puts that text and a second newline on standard output. -/
theorem println_adds_newline :
    echoHost.output "/usr/bin/python3" ["sol.py"] (some (testPath "0.in")) = some "3 4\n" ∧
      stdout (runFixture echoHost "/usr/bin/python3" "sol.py" "0.in").trace = "3 4\n\n" ∧
      stdout (runFixture echoHost "/usr/bin/python3" "sol.py" "0.in").trace ≠ "3 4\n" ∧
      stdout (main echoHost ["-t", "sol.py"]).trace = "Running tests...\n3 4\n\n" := by
  decide

/-- C9, amended: for every host, the runner prints, after the banner, the
captured output of every input fixture whose run takes place and succeeds, in
order, each followed by the newline of `fmt.Println`, whether or not a later
fixture fails; in particular a fixture at position j that opens and succeeds
after all the earlier ones did has its captured output as the printed line
j+1; and the only files the runner opens are input fixtures of the listing, so
no `.out` file is read. -/
theorem runner_prints_captured_output (env : Env) (flag scriptPath : String)
    (more : List String) (found pwd : String) (files : List String)
    (hflag : flag = "-t" ∨ flag = "--test")
    (hext : Ext scriptPath = ".py")
    (hwhich : env.output "which" ["python3"] none = some found)
    (hwd : env.getwd = some pwd)
    (hdir : env.readDir (.join [pwd, "tests"]) = some files) :
    printed (main env (flag :: scriptPath :: more)).trace =
        "Running tests..." ::
          (succeededFixtures env (TrimSpace found) scriptPath files).map
            (capturedOutput env (TrimSpace found) scriptPath) ∧
      stdout (main env (flag :: scriptPath :: more)).trace =
        String.join (("Running tests..." ::
          (succeededFixtures env (TrimSpace found) scriptPath files).map
            (capturedOutput env (TrimSpace found) scriptPath)).map (fun s => s ++ "\n")) ∧
      openAttempts (main env (flag :: scriptPath :: more)).trace =
        ((inputFixtures files).take
          ((succeededFixtures env (TrimSpace found) scriptPath files).length + 1)).map
          testPath ∧
      ∀ (j : Nat) (file result : String),
        (inputFixtures files)[j]? = some file →
        (∀ f ∈ (inputFixtures files).take j, env.openFile (testPath f) = true ∧
          env.output (TrimSpace found) [scriptPath] (some (testPath f)) ≠ none) →
        env.openFile (testPath file) = true →
        env.output (TrimSpace found) [scriptPath] (some (testPath file)) = some result →
        (printed (main env (flag :: scriptPath :: more)).trace)[j + 1]? = some result := by
  have hp : printed (main env (flag :: scriptPath :: more)).trace =
      "Running tests..." ::
        (succeededFixtures env (TrimSpace found) scriptPath files).map
          (capturedOutput env (TrimSpace found) scriptPath) := by
    rw [main_test_loop env flag scriptPath more found pwd files hflag hext hwhich hwd hdir]
    simp only [printed_append, printed_runFixtures]
    simp [printed]
  refine ⟨hp, ?_, ?_, ?_⟩
  · unfold stdout
    rw [hp]
  · rw [main_test_loop env flag scriptPath more found pwd files hflag hext hwhich hwd hdir]
    simp only [openAttempts_append, openAttempts_runFixtures]
    simp [openAttempts]
  · intro j file result hj hbefore hopen hres
    rw [hp, List.getElem?_cons_succ, List.getElem?_map]
    have hgood : ∀ f, env.openFile (testPath f) = true →
        env.output (TrimSpace found) [scriptPath] (some (testPath f)) ≠ none →
        fixtureSucceeds env (TrimSpace found) scriptPath f = true := by
      intro f h1 h2
      simp [fixtureSucceeds, h1, Option.isSome_iff_ne_none, h2]
    have hat := takeWhile_getElem_of_prefix
      (fixtureSucceeds env (TrimSpace found) scriptPath) (inputFixtures files) j file hj
      (fun f hf => hgood f (hbefore f hf).1 (hbefore f hf).2)
      (hgood file hopen (by rw [hres]; simp))
    unfold succeededFixtures
    rw [hat]
    simp [capturedOutput, hres]

/-- C9, on the echoing candidate with the fixture `0.in` holding `3 4`, and on
the candidate that succeeds on `0.in` before it fails on `1.in`. -/
theorem runner_prints_captured_output_witness :
    (printed (main echoHost ["-t", "sol.py"]).trace = ["Running tests...", "3 4\n"] ∧
      stdout (main echoHost ["-t", "sol.py"]).trace = "Running tests...\n3 4\n\n" ∧
      openAttempts (main echoHost ["-t", "sol.py"]).trace = [testPath "0.in"]) ∧
      (printed (main failingSecondHost ["-t", "sol.py"]).trace = ["Running tests...", "ok\n"] ∧
        stdout (main failingSecondHost ["-t", "sol.py"]).trace = "Running tests...\nok\n\n" ∧
        (printed (main failingSecondHost ["-t", "sol.py"]).trace)[0 + 1]? = some "ok\n") :=
  have h := runner_prints_captured_output echoHost "-t" "sol.py" [] "/usr/bin/python3\n" "/work"
    ["0.in", "0.out"] (Or.inl rfl) (by decide) rfl rfl rfl
  have g := runner_prints_captured_output failingSecondHost "-t" "sol.py" []
    "/usr/bin/python3\n" "/work" ["0.in", "0.out", "1.in", "1.out", "2.in", "2.out"]
    (Or.inl rfl) (by decide) rfl rfl rfl
  ⟨⟨h.1.trans (by decide), h.2.1.trans (by decide), h.2.2.1.trans (by decide)⟩,
    g.1.trans (by decide), g.2.1.trans (by decide),
    g.2.2.2 0 "0.in" "ok\n" (by decide) (by decide) (by decide) (by decide)⟩

end Kattis
